import Mathlib

/-!
Shallow embedding of `src/main.py` (itsEKO/animeplayer): a stdin/stdout JSON
bridge driving an external VLC process through its plaintext RC socket.

Modelling conventions:
* JSON values are the inductive `Json`; numeric literals are modelled as
  integers (no behaviour under consideration involves non-integer numbers).
* The mutable globals `vlc_process` / `current_file` together with the
  observable effect logs (RC sends, spawn attempts, terminations, stdout
  JSON lines, stderr diagnostics) form the `World` state threaded through
  the translated functions.
* Non-deterministic interactions with the OS (outcome of each RC socket
  connect/write, outcome of each `subprocess.Popen`) are an `Env` oracle,
  universally quantified in the theorems.
* `vlc_process.wait(timeout=2)` raising `TimeoutExpired` is modelled by
  `Env.waitTimesOut`; `time.sleep` calls are timing only and have no
  observable effect in the model.
* A Python exception propagating out of `process_command` is the
  `Option PyErr` component of the result; the `__main__` loop (`loopStep`)
  catches it and logs to stderr, mirroring lines 130-137 of the source.
  Exception message texts on stderr are approximated (no claim depends on
  them); stdout JSON lines are modelled exactly.
-/

/-- A JSON value, as produced by `json.loads` on one input line. -/
inductive Json where
  | null : Json
  | bool : Bool → Json
  | num : Int → Json
  | str : String → Json
  | arr : List Json → Json
  | obj : List (String × Json) → Json

/-- Python exceptions that can propagate out of `process_command`. -/
inductive PyErr where
  | attributeError : PyErr
  | typeError : PyErr
  | timeoutExpired : PyErr
deriving DecidableEq

/-- Outcome of one RC socket interaction (connect + sendall), per
`send_rc_command` lines 20-34. -/
inductive RCOutcome where
  | ok : RCOutcome
  | refused : RCOutcome
  | failed : String → RCOutcome
deriving DecidableEq

/-- Outcome of one `subprocess.Popen` call, lines 53-67: the executable may be
missing (`FileNotFoundError`), or a process spawns (and may have already died
when polled after the startup delay). -/
inductive SpawnOutcome where
  | fileNotFound : SpawnOutcome
  | spawned : Nat → Bool → SpawnOutcome
deriving DecidableEq

/-- The environment oracle: outcome of the n-th RC send, outcome of the n-th
spawn, and whether `vlc_process.wait(timeout=2)` (line 44) times out. -/
structure Env where
  rc : Nat → RCOutcome
  spawnOutcome : Nat → SpawnOutcome
  waitTimesOut : Bool

/-- The global session of the bridge: `vlc_process` (line 15) and
`current_file` (line 16). Process handles are identified by `Nat`. -/
structure Session where
  vlc_process : Option Nat
  current_file : Option String
deriving DecidableEq

/-- One attempted RC send: the command token passed to `send_rc_command`
together with the socket outcome. -/
structure RCSend where
  token : String
  outcome : RCOutcome
deriving DecidableEq

/-- The bytes written to the RC socket by an attempted send: on success the
token followed by a newline (line 26), on failure nothing reaches the wire. -/
def RCSend.wire (s : RCSend) : Option String :=
  match s.outcome with
  | RCOutcome.ok => some (s.token ++ "\n")
  | _ => none

/-- Program state: the session globals plus the logs of observable effects,
each in chronological order. -/
structure World where
  session : Session
  sends : List RCSend
  spawnAttempts : List (List String)
  terminated : List Nat
  outputs : List Json
  stderr : List String

/-- Initial world for processing a line, with the session in a given state
and all effect logs empty. -/
def World.init (s : Session) : World :=
  ⟨s, [], [], [], [], []⟩

/-- Python truthiness of a JSON value (`if not file_path:` line 92). -/
def truthy : Json → Bool
  | Json.null => false
  | Json.bool b => b
  | Json.num n => n != 0
  | Json.str s => s != ""
  | Json.arr xs => !xs.isEmpty
  | Json.obj fs => !fs.isEmpty

/-- Python `dict.get(key)`: the value if present, else `None`. `json.loads`
yields dicts with unique keys, so first-match lookup is exact. -/
def dictGet (fields : List (String × Json)) (k : String) : Json :=
  match fields.lookup k with
  | some v => v
  | none => Json.null

/-- Python `value == "s"` for a string literal `s`: true exactly when the
value is that string (line 88 dispatch comparisons). -/
def Json.isStr (j : Json) (s : String) : Bool :=
  match j with
  | Json.str t => t == s
  | _ => false

/-- A single-quote character, used when rendering Python `repr` text. -/
def squote : String := String.singleton (Char.ofNat 39)

mutual
/-- Python `repr` of a JSON-decoded value (escape sequences inside strings
are not reproduced; no claim exercises them). -/
def pyRepr : Json → String
  | Json.null => "None"
  | Json.bool true => "True"
  | Json.bool false => "False"
  | Json.num n => toString n
  | Json.str s => squote ++ s ++ squote
  | Json.arr xs => "[" ++ pyReprList xs ++ "]"
  | Json.obj fs => "\x7b" ++ pyReprFields fs ++ "\x7d"

/-- Comma-separated `repr` of list elements. -/
def pyReprList : List Json → String
  | [] => ""
  | [x] => pyRepr x
  | x :: xs => pyRepr x ++ ", " ++ pyReprList xs

/-- Comma-separated `repr` of dict items. -/
def pyReprFields : List (String × Json) → String
  | [] => ""
  | [(k, v)] => squote ++ k ++ squote ++ ": " ++ pyRepr v
  | (k, v) :: fs => squote ++ k ++ squote ++ ": " ++ pyRepr v ++ ", " ++ pyReprFields fs
end

/-- Python `str` of a JSON-decoded value, as interpolated by an f-string
(`f"sub_track {track_id}"` lines 115/121): strings verbatim, everything else
via `repr`. -/
def pyStr : Json → String
  | Json.str s => s
  | j => pyRepr j

/-- The string returned by `send_rc_command`: the sentinel `"OK"` on success
(line 27), `"ERROR: RC not connected"` on `ConnectionRefusedError` (line 31),
`"ERROR: <e>"` on any other exception (line 34). -/
def rcResponse : RCOutcome → String
  | RCOutcome.ok => "OK"
  | RCOutcome.refused => "ERROR: RC not connected"
  | RCOutcome.failed msg => "ERROR: " ++ msg

/-- Diagnostic lines printed to stderr by `send_rc_command` (lines 30, 33). -/
def rcStderr : RCOutcome → List String
  | RCOutcome.ok => []
  | RCOutcome.refused =>
      ["ERROR: Could not connect to VLC RC interface at 127.0.0.1:44444. VLC may be closed."]
  | RCOutcome.failed msg => ["ERROR: RC communication failed: " ++ msg]

/-- `send_rc_command(command)` lines 18-34: attempt one short-lived socket
exchange, return the sentinel string, never raise. -/
def send_rc_command (env : Env) (command : String) (w : World) : String × World :=
  let outcome := env.rc w.sends.length
  (rcResponse outcome,
    { w with sends := w.sends ++ [⟨command, outcome⟩],
             stderr := w.stderr ++ rcStderr outcome })

/-- The argument vector of the `subprocess.Popen` call, lines 53-60. -/
def vlcArgs (file_path : String) : List String :=
  ["vlc", "--intf=rc", "--rc-host=127.0.0.1:44444", "--rc-quiet", "--fullscreen",
    file_path]

/-- The `FileNotFoundError` message of line 75. -/
def fnfMsg : String :=
  "VLC executable not found. Since " ++ squote ++ "vlc" ++ squote ++
  " is in PATH, try using the absolute path (e.g., " ++ squote ++
  "C:\\Program Files\\VideoLAN\\VLC\\vlc.exe" ++ squote ++ ") instead of " ++
  squote ++ "vlc" ++ squote ++ "."

/-- The message of the `Exception` raised at line 67 when the freshly spawned
process has already exited. -/
def diedMsg : String :=
  "VLC process died immediately. Check if " ++ squote ++ "vlc" ++ squote ++
  " command is in your system PATH or use its absolute path."

/-- `start_vlc_rc(file_path)` lines 36-84: tear down any existing session
(best-effort RC stop, terminate, bounded wait), record the new file, spawn
VLC, check immediate death, and print exactly one JSON result — unless
`wait(timeout=2)` raises, which propagates uncaught. -/
def start_vlc_rc (env : Env) (file_path : String) (w : World) :
    World × Option PyErr :=
  let step1 : World × Option PyErr :=
    match w.session.vlc_process with
    | some p =>
        let r := send_rc_command env "stop" w
        let w1 := { r.2 with terminated := r.2.terminated ++ [p] }
        if env.waitTimesOut then (w1, some PyErr.timeoutExpired)
        else ({ w1 with session := { w1.session with vlc_process := none } }, none)
    | none => (w, none)
  match step1 with
  | (w1, some e) => (w1, some e)
  | (w1, none) =>
    let w2 := { w1 with session := { w1.session with current_file := some file_path } }
    match env.spawnOutcome w2.spawnAttempts.length with
    | SpawnOutcome.fileNotFound =>
        let w3 := { w2 with spawnAttempts := w2.spawnAttempts ++ [vlcArgs file_path] }
        ({ w3 with stderr := w3.stderr ++ ["ERROR: " ++ fnfMsg],
                   outputs := w3.outputs ++ [Json.obj [("error", Json.str fnfMsg)]] },
         none)
    | SpawnOutcome.spawned pid dies =>
        let w3 := { w2 with
          spawnAttempts := w2.spawnAttempts ++ [vlcArgs file_path],
          session := { w2.session with vlc_process := some pid } }
        if dies then
          let emsg := "Failed to start external VLC process: " ++ diedMsg
          ({ w3 with
              terminated := w3.terminated ++ [pid],
              session := { w3.session with vlc_process := none },
              stderr := w3.stderr ++ ["ERROR: " ++ emsg],
              outputs := w3.outputs ++ [Json.obj [("error", Json.str emsg)]] },
           none)
        else
          ({ w3 with outputs := w3.outputs ++
              [Json.obj [("status", Json.str "playing"),
                         ("message", Json.str "VLC launched externally with RC interface.")]] },
           none)

/-- `process_command(command_data)` lines 86-125: dispatch on the `command`
field.  `command_data.get` raises `AttributeError` on a non-dict value;
`Path(file_path)` (line 96) raises `TypeError` on a truthy non-string. -/
def process_command (env : Env) (command_data : Json) (w : World) :
    World × Option PyErr :=
  match command_data with
  | Json.obj fields =>
    let command := dictGet fields "command"
    if command.isStr "load" then
      let file_path := dictGet fields "file_path"
      if !truthy file_path then
        ({ w with outputs := w.outputs ++ [Json.obj [("error", Json.str "Missing file path")]] },
         none)
      else
        match file_path with
        | Json.str s => start_vlc_rc env s w
        | _ => (w, some PyErr.typeError)
    else if command.isStr "play_pause" then
      let r := send_rc_command env "pause" w
      ({ r.2 with outputs := r.2.outputs ++
          [Json.obj [("status", Json.str "toggled"), ("rc_response", Json.str r.1)]] },
       none)
    else if command.isStr "stop" then
      let r := send_rc_command env "stop" w
      let w1 :=
        match r.2.session.vlc_process with
        | some p => { r.2 with terminated := r.2.terminated ++ [p],
                               session := { r.2.session with vlc_process := none } }
        | none => r.2
      ({ w1 with outputs := w1.outputs ++
          [Json.obj [("status", Json.str "stopped"), ("rc_response", Json.str r.1)]] },
       none)
    else if command.isStr "set_subtitle" then
      let track_id := dictGet fields "track_id"
      let r := send_rc_command env ("sub_track " ++ pyStr track_id) w
      ({ r.2 with outputs := r.2.outputs ++
          [Json.obj [("status", Json.str "subtitle_set"), ("id", track_id),
                     ("rc_response", Json.str r.1)]] },
       none)
    else if command.isStr "set_audio" then
      let track_id := dictGet fields "track_id"
      let r := send_rc_command env ("audio_track " ++ pyStr track_id) w
      ({ r.2 with outputs := r.2.outputs ++
          [Json.obj [("status", Json.str "audio_set"), ("id", track_id),
                     ("rc_response", Json.str r.1)]] },
       none)
    else
      ({ w with outputs := w.outputs ++ [Json.obj [("error", Json.str "Unknown command")]] },
       none)
  | _ => (w, some PyErr.attributeError)

/-- Stderr text for an exception reaching the `__main__` handler (line 137);
the message text is approximated, only its presence matters. -/
def pyErrText : PyErr → String
  | PyErr.attributeError => "Unhandled error in main loop: AttributeError"
  | PyErr.typeError => "Unhandled error in main loop: TypeError"
  | PyErr.timeoutExpired => "Unhandled error in main loop: TimeoutExpired"

/-- One iteration of the `__main__` loop (lines 130-137) for a line that
parsed successfully as JSON: run `process_command`; any exception is caught,
logged to stderr, and the loop continues. -/
def loopStep (env : Env) (line : Json) (w : World) : World :=
  match process_command env line w with
  | (w1, none) => w1
  | (w1, some e) => { w1 with stderr := w1.stderr ++ [pyErrText e] }

/-- Run one parsed input line from a given session state with empty logs. -/
def runLine (env : Env) (s : Session) (j : Json) : World × Option PyErr :=
  process_command env j (World.init s)

/-- The parsed input `{"command": "stop"}`. -/
def stopCmd : Json := Json.obj [("command", Json.str "stop")]

/-- The JSON result line printed by the `stop` branch (line 110). -/
def stoppedResult (resp : String) : Json :=
  Json.obj [("status", Json.str "stopped"), ("rc_response", Json.str resp)]

/-- A sample environment: every RC send succeeds, every spawn yields a live
process with handle 1, `wait` completes in time. -/
def envAllOK : Env :=
  ⟨fun _ => RCOutcome.ok, fun _ => SpawnOutcome.spawned 1 false, false⟩

/-- A sample environment: every RC connection is refused and the `vlc`
executable is missing. -/
def envDown : Env :=
  ⟨fun _ => RCOutcome.refused, fun _ => SpawnOutcome.fileNotFound, false⟩

/-- The empty session: no process handle, no loaded file. -/
def sessionEmpty : Session := ⟨none, none⟩

/-- Whether a JSON value is an object (a Python dict, the only values on
which `.get` does not raise `AttributeError`). -/
def Json.isObj : Json → Bool
  | Json.obj _ => true
  | _ => false

theorem Json.isStr_eq_false (j : Json) (s : String) (h : j ≠ Json.str s) :
    j.isStr s = false := by
  cases j <;> simp_all [Json.isStr]

/-- C2 counterexample: the claim says `stop` makes the loaded media path
null, but from session ⟨handle 7, "/a.mp4"⟩ a `stop` leaves
`current_file = "/a.mp4"`, which is not null. -/
theorem C2_counterexample :
    (runLine envAllOK ⟨some 7, some "/a.mp4"⟩ stopCmd).1.session.current_file
      = some "/a.mp4" ∧ (some "/a.mp4" : Option String) ≠ none := by
  exact ⟨rfl, by simp⟩

/-- C2 amended: for every state and every RC outcome, `stop` sends the RC
token `stop`, terminates the tracked process handle if one exists, sets the
process handle to null — but leaves `current_file` unchanged rather than
clearing it — and emits `{"status": "stopped", "rc_response": ...}`. -/
theorem C2_amended (env : Env) (s : Session) :
    let r := runLine env s stopCmd
    r.1.sends = [⟨"stop", env.rc 0⟩] ∧
    r.1.terminated = s.vlc_process.toList ∧
    r.1.session.vlc_process = none ∧
    r.1.session.current_file = s.current_file ∧
    r.1.outputs = [stoppedResult (rcResponse (env.rc 0))] ∧
    r.2 = none := by
  obtain ⟨vp, cf⟩ := s
  cases vp <;> exact ⟨rfl, rfl, rfl, rfl, rfl, rfl⟩

/-- C8: stop is idempotent — from every state and under every RC outcome,
two consecutive `stop` commands produce two `{"status": "stopped", ...}`
results, and after each of the two the tracked process handle is null. -/
theorem C8_stop_idempotent (env : Env) (s : Session) :
    let w1 := loopStep env stopCmd (World.init s)
    let w2 := loopStep env stopCmd w1
    w1.outputs = [stoppedResult (rcResponse (env.rc 0))] ∧
    w1.session.vlc_process = none ∧
    w2.outputs = [stoppedResult (rcResponse (env.rc 0)),
                  stoppedResult (rcResponse (env.rc 1))] ∧
    w2.session.vlc_process = none := by
  obtain ⟨vp, cf⟩ := s
  cases vp <;> exact ⟨rfl, rfl, rfl, rfl⟩

/-- C7: `set_subtitle` with `track_id` `t` attempts an RC send whose token is
literally `sub_track t`, and on a successful connection the bytes on the wire
are that token newline-terminated; the result is
`{"status": "subtitle_set", "id": t, "rc_response": ...}`.  `set_audio` is
the same with token `audio_track t` and status `audio_set`.  At `t = 3` the
token is literally `sub_track 3`. -/
theorem C7_track_commands (env : Env) (s : Session) (t : Int) :
    let rs := runLine env s
      (Json.obj [("command", Json.str "set_subtitle"), ("track_id", Json.num t)])
    let ra := runLine env s
      (Json.obj [("command", Json.str "set_audio"), ("track_id", Json.num t)])
    rs.1.sends = [⟨"sub_track " ++ toString t, env.rc 0⟩] ∧
    RCSend.wire ⟨"sub_track " ++ toString t, RCOutcome.ok⟩
      = some ("sub_track " ++ toString t ++ "\n") ∧
    rs.1.outputs = [Json.obj [("status", Json.str "subtitle_set"),
      ("id", Json.num t), ("rc_response", Json.str (rcResponse (env.rc 0)))]] ∧
    rs.2 = none ∧
    ra.1.sends = [⟨"audio_track " ++ toString t, env.rc 0⟩] ∧
    ra.1.outputs = [Json.obj [("status", Json.str "audio_set"),
      ("id", Json.num t), ("rc_response", Json.str (rcResponse (env.rc 0)))]] ∧
    ra.2 = none ∧
    "sub_track " ++ toString (3 : Int) = "sub_track 3" := by
  exact ⟨rfl, rfl, rfl, rfl, rfl, rfl, rfl, rfl⟩

/-- C4: `send_rc_command` returns exactly `"OK"` iff the connect-and-write
succeeded, and every failure outcome yields a string distinct from `"OK"`;
`play_pause`, `stop`, `set_subtitle` and `set_audio` each surface the
returned string verbatim as the `rc_response` field of their result. -/
theorem C4_rc_sentinel (env : Env) (s : Session) (tid : Json) :
    (∀ o : RCOutcome, rcResponse o = "OK" ↔ o = RCOutcome.ok) ∧
    (∀ tok w, (send_rc_command env tok w).1 = rcResponse (env.rc w.sends.length)) ∧
    (runLine env s (Json.obj [("command", Json.str "play_pause")])).1.outputs
      = [Json.obj [("status", Json.str "toggled"),
                   ("rc_response", Json.str (rcResponse (env.rc 0)))]] ∧
    (runLine env s stopCmd).1.outputs = [stoppedResult (rcResponse (env.rc 0))] ∧
    (runLine env s (Json.obj [("command", Json.str "set_subtitle"),
        ("track_id", tid)])).1.outputs
      = [Json.obj [("status", Json.str "subtitle_set"), ("id", tid),
                   ("rc_response", Json.str (rcResponse (env.rc 0)))]] ∧
    (runLine env s (Json.obj [("command", Json.str "set_audio"),
        ("track_id", tid)])).1.outputs
      = [Json.obj [("status", Json.str "audio_set"), ("id", tid),
                   ("rc_response", Json.str (rcResponse (env.rc 0)))]] := by
  obtain ⟨vp, cf⟩ := s
  refine ⟨?_, fun tok w => rfl, ?_, ?_, ?_, ?_⟩
  · intro o
    cases o with
    | ok => simp [rcResponse]
    | refused => simp [rcResponse]
    | failed msg =>
        simp only [rcResponse]
        constructor
        · intro h
          have hl := congrArg String.length h
          rw [String.length_append] at hl
          have h1 : "ERROR: ".length = 7 := rfl
          have h2 : "OK".length = 2 := rfl
          omega
        · intro h
          exact absurd h (by simp)
  · cases vp <;> rfl
  · cases vp <;> rfl
  · cases vp <;> rfl
  · cases vp <;> rfl

/-- C5: a `load` whose input object has no `file_path` key emits exactly the
one result `{"error": "Missing file path"}`, attempts no spawn, sends
nothing over RC, raises nothing, and leaves the session unchanged. -/
theorem C5_missing_file_path (env : Env) (s : Session)
    (fields : List (String × Json))
    (hc : dictGet fields "command" = Json.str "load")
    (hf : fields.lookup "file_path" = none) :
    let r := process_command env (Json.obj fields) (World.init s)
    r.1.outputs = [Json.obj [("error", Json.str "Missing file path")]] ∧
    r.1.spawnAttempts = [] ∧
    r.1.sends = [] ∧
    r.1.session = s ∧
    r.2 = none := by
  simp only [process_command]
  rw [hc]
  simp [Json.isStr, dictGet, hf, truthy, World.init]

/-- C5 witness at the concrete input `{"command": "load"}` from the empty
session under `envDown`. -/
theorem C5_missing_file_path_witness :
    let r := process_command envDown (Json.obj [("command", Json.str "load")])
      (World.init sessionEmpty)
    r.1.outputs = [Json.obj [("error", Json.str "Missing file path")]] ∧
    r.1.spawnAttempts = [] ∧
    r.1.sends = [] ∧
    r.1.session = sessionEmpty ∧
    r.2 = none :=
  C5_missing_file_path envDown sessionEmpty [("command", Json.str "load")] rfl rfl

/-- C6: a parsed input object whose `command` value is none of the five known
command strings — including a missing `command` key, which yields `None` —
emits exactly `{"error": "Unknown command"}`, sends nothing, spawns nothing,
raises nothing, and leaves the session unchanged. -/
theorem C6_unknown_command (env : Env) (s : Session)
    (fields : List (String × Json))
    (h : ∀ name ∈ ["load", "play_pause", "stop", "set_subtitle", "set_audio"],
         dictGet fields "command" ≠ Json.str name) :
    let r := process_command env (Json.obj fields) (World.init s)
    r.1.outputs = [Json.obj [("error", Json.str "Unknown command")]] ∧
    r.1.sends = [] ∧
    r.1.spawnAttempts = [] ∧
    r.1.session = s ∧
    r.2 = none := by
  have h1 := Json.isStr_eq_false _ "load" (h "load" (by simp))
  have h2 := Json.isStr_eq_false _ "play_pause" (h "play_pause" (by simp))
  have h3 := Json.isStr_eq_false _ "stop" (h "stop" (by simp))
  have h4 := Json.isStr_eq_false _ "set_subtitle" (h "set_subtitle" (by simp))
  have h5 := Json.isStr_eq_false _ "set_audio" (h "set_audio" (by simp))
  simp only [process_command, h1, h2, h3, h4, h5]
  simp [World.init]

/-- C6 witness at the concrete input `{"command": "seek"}` from the empty
session under `envDown`. -/
theorem C6_unknown_command_witness :
    let r := process_command envDown (Json.obj [("command", Json.str "seek")])
      (World.init sessionEmpty)
    r.1.outputs = [Json.obj [("error", Json.str "Unknown command")]] ∧
    r.1.sends = [] ∧
    r.1.spawnAttempts = [] ∧
    r.1.session = sessionEmpty ∧
    r.2 = none :=
  C6_unknown_command envDown sessionEmpty [("command", Json.str "seek")]
    (by intro name hn; fin_cases hn <;> simp [dictGet])

/-- C10: `set_subtitle` and `set_audio` with no `track_id` key raise no
validation error: the literal text `None` is interpolated into the RC token
(`sub_track None` / `audio_track None`), and the emitted result is
success-shaped with a null `id` field — never an `{"error": ...}` result. -/
theorem C10_missing_track_id (env env2 : Env) (s s2 : Session)
    (fields fields2 : List (String × Json))
    (h1 : dictGet fields "command" = Json.str "set_subtitle")
    (h2 : fields.lookup "track_id" = none)
    (h3 : dictGet fields2 "command" = Json.str "set_audio")
    (h4 : fields2.lookup "track_id" = none) :
    let rs := process_command env (Json.obj fields) (World.init s)
    let ra := process_command env2 (Json.obj fields2) (World.init s2)
    rs.1.sends = [⟨"sub_track None", env.rc 0⟩] ∧
    rs.1.outputs = [Json.obj [("status", Json.str "subtitle_set"),
      ("id", Json.null), ("rc_response", Json.str (rcResponse (env.rc 0)))]] ∧
    rs.2 = none ∧
    ra.1.sends = [⟨"audio_track None", env2.rc 0⟩] ∧
    ra.1.outputs = [Json.obj [("status", Json.str "audio_set"),
      ("id", Json.null), ("rc_response", Json.str (rcResponse (env2.rc 0)))]] ∧
    ra.2 = none := by
  simp only [process_command]
  rw [h1, h3]
  simp [Json.isStr, dictGet, h2, h4, send_rc_command, World.init, pyStr,
    pyRepr]

/-- C10 witness at the concrete inputs `{"command": "set_subtitle"}` and
`{"command": "set_audio"}` from the empty session under `envDown`. -/
theorem C10_missing_track_id_witness :
    let rs := process_command envDown (Json.obj [("command", Json.str "set_subtitle")])
      (World.init sessionEmpty)
    let ra := process_command envAllOK (Json.obj [("command", Json.str "set_audio")])
      (World.init sessionEmpty)
    rs.1.sends = [⟨"sub_track None", envDown.rc 0⟩] ∧
    rs.1.outputs = [Json.obj [("status", Json.str "subtitle_set"),
      ("id", Json.null), ("rc_response", Json.str (rcResponse (envDown.rc 0)))]] ∧
    rs.2 = none ∧
    ra.1.sends = [⟨"audio_track None", envAllOK.rc 0⟩] ∧
    ra.1.outputs = [Json.obj [("status", Json.str "audio_set"),
      ("id", Json.null), ("rc_response", Json.str (rcResponse (envAllOK.rc 0)))]] ∧
    ra.2 = none :=
  C10_missing_track_id envDown envAllOK sessionEmpty sessionEmpty
    [("command", Json.str "set_subtitle")] [("command", Json.str "set_audio")]
    rfl rfl rfl rfl

/-- C9: a line parsing as JSON but not as an object makes `dict.get` raise
`AttributeError`; the loop catches it, logs one diagnostic line, produces
zero JSON result lines, leaves the session untouched, and continues. -/
theorem C9_nonobject_line (env : Env) (s : Session) (j : Json)
    (h : j.isObj = false) :
    (process_command env j (World.init s)).2 = some PyErr.attributeError ∧
    (loopStep env j (World.init s)).outputs = [] ∧
    (loopStep env j (World.init s)).session = s ∧
    (loopStep env j (World.init s)).sends = [] ∧
    (loopStep env j (World.init s)).spawnAttempts = [] ∧
    (loopStep env j (World.init s)).stderr = [pyErrText PyErr.attributeError] := by
  cases j <;> simp_all [Json.isObj, process_command, loopStep, World.init]

/-- C9 witness at the concrete non-object line `1` from the empty session
under `envAllOK`. -/
theorem C9_nonobject_line_witness :
    (process_command envAllOK (Json.num 1) (World.init sessionEmpty)).2
      = some PyErr.attributeError ∧
    (loopStep envAllOK (Json.num 1) (World.init sessionEmpty)).outputs = [] ∧
    (loopStep envAllOK (Json.num 1) (World.init sessionEmpty)).session = sessionEmpty ∧
    (loopStep envAllOK (Json.num 1) (World.init sessionEmpty)).sends = [] ∧
    (loopStep envAllOK (Json.num 1) (World.init sessionEmpty)).spawnAttempts = [] ∧
    (loopStep envAllOK (Json.num 1) (World.init sessionEmpty)).stderr
      = [pyErrText PyErr.attributeError] :=
  C9_nonobject_line envAllOK sessionEmpty (Json.num 1) rfl

/-- C3 counterexample: the claim says a `load` whose spawn raises
file-not-found leaves the loaded media path null, but from the empty session
a failed `load` of `/m.mp4` under `envDown` leaves
`current_file = "/m.mp4"`, which is not null. -/
theorem C3_counterexample :
    let r := runLine envDown sessionEmpty
      (Json.obj [("command", Json.str "load"), ("file_path", Json.str "/m.mp4")])
    r.1.session.current_file = some "/m.mp4" ∧
    r.1.session.vlc_process = none ∧
    r.1.outputs = [Json.obj [("error", Json.str fnfMsg)]] ∧
    (some "/m.mp4" : Option String) ≠ none :=
  ⟨rfl, rfl, rfl, by simp⟩

/-- C3 amended: a `load` whose spawn raises file-not-found emits exactly the
structured result `{"error": ...}` and afterwards the process handle is null
— but the loaded media path is set to the requested path (`current_file` is
assigned before the spawn attempt and never reset), so the failed load does
leave a trace in the session state. -/
theorem C3_amended (env : Env) (s : Session) (fp : String)
    (hfp : fp ≠ "")
    (hspawn : env.spawnOutcome 0 = SpawnOutcome.fileNotFound)
    (hw : s.vlc_process = none ∨ env.waitTimesOut = false) :
    let r := runLine env s
      (Json.obj [("command", Json.str "load"), ("file_path", Json.str fp)])
    r.1.outputs = [Json.obj [("error", Json.str fnfMsg)]] ∧
    r.1.session.vlc_process = none ∧
    r.1.session.current_file = some fp ∧
    r.1.spawnAttempts = [vlcArgs fp] ∧
    r.2 = none := by
  obtain ⟨vp, cf⟩ := s
  cases vp with
  | none =>
      simp [runLine, process_command, Json.isStr, dictGet, List.lookup, truthy,
        bne_iff_ne, hfp, start_vlc_rc, World.init, hspawn]
  | some p =>
      have hwf : env.waitTimesOut = false := by
        rcases hw with h | h
        · exact absurd h (by simp)
        · exact h
      simp [runLine, process_command, Json.isStr, dictGet, List.lookup, truthy,
        bne_iff_ne, hfp, start_vlc_rc, send_rc_command, World.init, hspawn, hwf]

/-- C3 witness: the amended claim at `/m.mp4` from the empty session under
`envDown`. -/
theorem C3_amended_witness :
    ("/m.mp4" : String) ≠ "" ∧
    envDown.spawnOutcome 0 = SpawnOutcome.fileNotFound ∧
    ((runLine envDown sessionEmpty
        (Json.obj [("command", Json.str "load"),
          ("file_path", Json.str "/m.mp4")])).1.outputs
      = [Json.obj [("error", Json.str fnfMsg)]] ∧
     (runLine envDown sessionEmpty
        (Json.obj [("command", Json.str "load"),
          ("file_path", Json.str "/m.mp4")])).1.session.vlc_process = none ∧
     (runLine envDown sessionEmpty
        (Json.obj [("command", Json.str "load"),
          ("file_path", Json.str "/m.mp4")])).1.session.current_file
      = some "/m.mp4" ∧
     (runLine envDown sessionEmpty
        (Json.obj [("command", Json.str "load"),
          ("file_path", Json.str "/m.mp4")])).1.spawnAttempts
      = [vlcArgs "/m.mp4"] ∧
     (runLine envDown sessionEmpty
        (Json.obj [("command", Json.str "load"),
          ("file_path", Json.str "/m.mp4")])).2 = none) :=
  ⟨by simp, rfl,
    C3_amended envDown sessionEmpty "/m.mp4" (by simp) rfl (Or.inl rfl)⟩

/-- `start_vlc_rc` prints exactly one JSON result line when it returns
normally, and none when `wait(timeout=2)` raises. -/
theorem start_vlc_rc_output_count (env : Env) (fp : String) (w : World) :
    ((start_vlc_rc env fp w).1).outputs.length =
      (if (start_vlc_rc env fp w).2 = none then w.outputs.length + 1
       else w.outputs.length) := by
  cases hv : w.session.vlc_process with
  | none =>
      cases hs : env.spawnOutcome w.spawnAttempts.length with
      | fileNotFound => simp [start_vlc_rc, hv, hs]
      | spawned pid dies =>
          cases dies <;> simp [start_vlc_rc, hv, hs]
  | some p =>
      cases hwto : env.waitTimesOut with
      | true => simp [start_vlc_rc, send_rc_command, hv, hwto]
      | false =>
          cases hs : env.spawnOutcome w.spawnAttempts.length with
          | fileNotFound =>
              simp [start_vlc_rc, send_rc_command, hv, hwto, hs]
          | spawned pid dies =>
              cases dies <;> simp [start_vlc_rc, send_rc_command, hv, hwto, hs]

/-- C1 counterexample: the line `[]` parses successfully as JSON, yet the
claim's "exactly one JSON result line" fails — dispatch raises
`AttributeError` on `.get` and the loop writes zero result lines. -/
theorem C1_counterexample :
    (loopStep envDown (Json.arr []) (World.init sessionEmpty)).outputs = [] ∧
    (process_command envDown (Json.arr []) (World.init sessionEmpty)).2
      = some PyErr.attributeError :=
  ⟨rfl, rfl⟩

/-- C1 amended: for a parsed input line, the loop writes exactly one JSON
result line when dispatch completes without an uncaught exception, and zero
result lines when dispatch raises (non-object lines, and object lines whose
dispatch raises, are caught at the loop level); the loop step never changes
what dispatch printed. -/
theorem C1_amended (env : Env) (j : Json) (s : Session) :
    (loopStep env j (World.init s)).outputs
      = (process_command env j (World.init s)).1.outputs ∧
    (process_command env j (World.init s)).1.outputs.length
      = (if (process_command env j (World.init s)).2 = none then 1 else 0) := by
  constructor
  · unfold loopStep
    cases hp : process_command env j (World.init s) with
    | mk w1 e => cases e <;> simp
  · cases j with
    | null => simp [process_command, World.init]
    | bool b => simp [process_command, World.init]
    | num n => simp [process_command, World.init]
    | str t => simp [process_command, World.init]
    | arr xs => simp [process_command, World.init]
    | obj fields =>
        simp only [process_command]
        split
        · split
          · simp [World.init]
          · split
            · next t ht =>
                have h := start_vlc_rc_output_count env t (World.init s)
                simpa [World.init] using h
            · simp [World.init]
        · split
          · simp [send_rc_command, World.init]
          · split
            · split <;> simp [send_rc_command, World.init]
            · split
              · simp [send_rc_command, World.init]
              · split
                · simp [send_rc_command, World.init]
                · simp [World.init]
